import Mathlib

/-!
Verification development for the `CodeAnalyzer` core of
`adaptive_code_intelligence_engine.py`.

The Python source is shallowly embedded:

* the Python AST (the output of `ast.parse`) is modelled by the inductive
  types `PyExpr` / `PyStmt`, covering every node kind the analyzer
  distinguishes, with a generic `otherExpr`/`otherStmt` carrying children for
  all remaining kinds;
* `ast.walk` is modelled by `walkModule` (pre-order instead of Python's
  breadth-first order; the analyzer only counts, filters and folds over the
  walk, so the multiset of visited nodes is what matters and it is the same);
* the regex rules of `bug_patterns` / `optimization_patterns` are embedded as
  executable matchers on one physical line (a `List Char`); each matcher's
  doc comment quotes the original pattern and records how the
  backtracking-existence semantics of `re.search` was translated;
* Python float arithmetic in `_calculate_quality_score` is modelled over `ℚ`
  (the formula is small integer/ratio arithmetic);
* the file read and `ast.parse` (external to the analyzed code) are modelled
  as an `Except` input to `analyze_file`: `.error msg` is a read/parse
  exception with message `msg`, `.ok (content, tree)` is a successful read of
  `content` that parsed to `tree`;
* `time.time()` is modelled as an explicit `now` parameter;
* Python's `str(ast_node)` fallback used for non-`Name` decorator / base
  expressions is modelled as an explicit `render` parameter: on CPython its
  value is the default object repr, which embeds the object's memory address,
  so distinct calls may observe distinct renderings of equal subtrees.
-/

/-! ### Characters and physical lines -/

/-- Python regex `\s` (ASCII part; the analyzer's inputs in the claims are
ASCII, so the extra Unicode whitespace accepted by Python is not modelled). -/
def pyIsSpace (c : Char) : Bool :=
  c = ' ' || c = '\t' || c = '\n' || c = '\r' || c = '\x0b' || c = '\x0c'

/-- Python regex `\w` (ASCII part). -/
def pyIsWord (c : Char) : Bool := c.isAlphanum || c = '_'

/-- Line-break characters recognized by `str.splitlines` (`\r\n` is handled
separately as a single break). -/
def isLineBreak (c : Char) : Bool :=
  c = '\n' || c = '\r' || c = '\x0b' || c = '\x0c' ||
  c = '\x1c' || c = '\x1d' || c = '\x1e' || c = '\x85' ||
  c = '\u2028' || c = '\u2029'

/-- Collapse the two-character break `\r\n` to `\n`, after which every break
is a single character; `str.splitlines` treats `\r\n` as one boundary. -/
def normalizeCRLF : List Char → List Char
  | [] => []
  | '\r' :: '\n' :: rest => '\n' :: normalizeCRLF rest
  | c :: rest => c :: normalizeCRLF rest

/-- Split on single-character breaks, accumulating the current line in `acc`
(reversed).  A final unterminated line is kept only when non-empty, matching
`str.splitlines`. -/
def splitlinesAux : List Char → List Char → List (List Char)
  | [], acc => if acc.isEmpty then [] else [acc.reverse]
  | c :: rest, acc =>
      if isLineBreak c then acc.reverse :: splitlinesAux rest []
      else splitlinesAux rest (c :: acc)

/-- `content.splitlines()` on the model level: the list of physical lines,
each given as a `List Char` containing no line break. -/
def pySplitlines (content : String) : List (List Char) :=
  splitlinesAux (normalizeCRLF content.toList) []

/-- `line.strip()` (ASCII whitespace). -/
def pyStrip (l : List Char) : List Char :=
  ((l.dropWhile pyIsSpace).reverse.dropWhile pyIsSpace).reverse

/-- `name.split('.')[0]`: the prefix of `name` before the first dot (the whole
string when there is no dot, `""` for `""`, exactly as in Python). -/
def firstSegment (s : String) : String :=
  String.mk (s.toList.takeWhile (fun c => c != '.'))

example : pySplitlines "" = [] := by decide
example : pySplitlines "a\nb" = [['a'], ['b']] := by decide
example : pySplitlines "a\r\nb\n" = [['a'], ['b']] := by decide
example : pySplitlines "\n\n" = [[], []] := by decide
example : firstSegment "os.path" = "os" := by decide
example : pyStrip "  ab ".toList = ['a', 'b'] := by decide

/-! ### The lexical rules

Each `*_search` function decides whether `re.search(pattern, line)` finds a
match of the corresponding rule pattern in the given string.  `re.search`
reports a match iff *some* decomposition of the string fits the pattern, so
greedy/lazy quantifier behaviour is irrelevant and each pattern is translated
into an existence check.  Wherever a quantified class is followed by a
character that the class cannot match (for example `\s*` followed by `:`),
every successful decomposition necessarily uses the maximal run, and the
translation uses `takeWhile`/`dropWhile` directly; the remaining genuinely
ambiguous splits are enumerated with `List.range`.  `.` never matches `\n`,
`^` anchors at the start of the string, and `$` matches at the end or just
before a single trailing `\n` (the scanner only ever passes single physical
lines, but the matchers are faithful on arbitrary strings except where a
comment notes otherwise). -/

/-- `s` occurs as a literal substring of `l` starting at index `i`. -/
def litAt (l : List Char) (i : Nat) (s : List Char) : Bool :=
  (l.drop i).take s.length == s

/-- Rule `unused_variable`, pattern `^\s*(\w+)\s*=.*$(?!\n.*\1)`.
Anchored at the start; `\s*`, `(\w+)`, `\s*` are each forced to the maximal
run because the next required character is outside the class.  `.*$` requires
the remainder after `=` to contain no `\n` except possibly a single trailing
one, and at the position where `$` matches the negative lookahead
`(?!\n.*\1)` always succeeds: either nothing follows, or only the final `\n`
follows and `.*\1` cannot match a non-empty group in the empty remainder. -/
def unused_variable_search (l : List Char) : Bool :=
  let rest1 := l.dropWhile pyIsSpace
  let w := rest1.takeWhile pyIsWord
  let rest2 := (rest1.dropWhile pyIsWord).dropWhile pyIsSpace
  !w.isEmpty && rest2.head? == some '=' &&
    (let rest := rest2.drop 1
     let core := if rest.getLast? == some '\n' then rest.dropLast else rest
     core.all (fun c => c != '\n'))

/-- Rule `duplicate_code`, pattern `(.{20,})\n(?:.*\n)*?\1`.
`.` excludes `\n`, so the group `(.{20,})` is the run of non-`\n` characters
from the match start up to the first `\n` (it cannot stop earlier: the next
pattern character is `\n`), and must have length at least 20.  The lazily
repeated `(?:.*\n)*?` block matches exactly the strings that are empty or end
in `\n` (splitting after each `\n`), after which the backreference `\1`
requires the group text to occur again. -/
def duplicate_code_search (l : List Char) : Bool :=
  (List.range (l.length + 1)).any fun i =>
    let t0 := l.drop i
    let a := t0.takeWhile (fun c => c != '\n')
    decide (20 ≤ a.length) &&
      (let t1 := t0.drop a.length
       t1.head? == some '\n' &&
         (let tail := t1.drop 1
          (List.range (tail.length + 1)).any fun k =>
            (decide (k = 0) || (tail.take k).getLast? == some '\n') &&
              (tail.drop k).take a.length == a))

/-- Rule `long_line`, pattern `^.{120,}$`: everything up to the end (or up to
a single trailing `\n`) is `\n`-free and at least 120 characters long. -/
def long_line_search (l : List Char) : Bool :=
  let core := if l.getLast? == some '\n' then l.dropLast else l
  decide (120 ≤ core.length) && core.all (fun c => c != '\n')

/-- Rule `deep_nesting`, pattern `^(\s{12,})`: at least 12 leading whitespace
characters. -/
def deep_nesting_search (l : List Char) : Bool :=
  decide (12 ≤ l.length) && (l.take 12).all pyIsSpace

/-- Rule `magic_number`, pattern `\b(?<![\w.])\d{2,}\b(?![\w.])`: a run of at
least two digits whose neighbours (when they exist) are neither word
characters nor dots; the lookaround conditions subsume both `\b`s because a
digit is a word character. -/
def magic_number_search (l : List Char) : Bool :=
  let n := l.length
  (List.range (n + 1)).any fun i =>
    (List.range (n + 1)).any fun j =>
      decide (i + 2 ≤ j) && decide (j ≤ n) &&
        ((l.drop i).take (j - i)).all Char.isDigit &&
        (match (if i = 0 then none else (l.take i).getLast?) with
         | none => true
         | some c => !pyIsWord c && c != '.') &&
        (match (l.drop j).head? with
         | none => true
         | some c => !pyIsWord c && c != '.')

/-- Rule `bare_except`, pattern `except\s*:`: the literal `except` anywhere,
then whitespace, then `:`. -/
def bare_except_search (l : List Char) : Bool :=
  (List.range (l.length + 1)).any fun i =>
    litAt l i "except".toList &&
      ((l.drop (i + 6)).dropWhile pyIsSpace).head? == some ':'

/-- Rule `mutable_default`, pattern `def\s+\w+\([^)]*=\s*[\[\{]`: the literal
`def` anywhere (the pattern has no word boundary), whitespace, a name, `(`,
then — since `=` itself is matched by `[^)]*` — some split of the argument
text into a `)`-free prefix, `=`, whitespace, and `[` or `{`. -/
def mutable_default_search (l : List Char) : Bool :=
  (List.range (l.length + 1)).any fun i =>
    litAt l i "def".toList &&
      (let t1 := l.drop (i + 3)
       !(t1.takeWhile pyIsSpace).isEmpty &&
         (let t2 := t1.dropWhile pyIsSpace
          !(t2.takeWhile pyIsWord).isEmpty &&
            (let t3 := t2.dropWhile pyIsWord
             t3.head? == some '(' &&
               (let t4 := t3.drop 1
                (List.range (t4.length + 1)).any fun k =>
                  (t4.take k).all (fun c => c != ')') &&
                    (let t5 := t4.drop k
                     t5.head? == some '=' &&
                       (match ((t5.drop 1).dropWhile pyIsSpace).head? with
                        | some c => c = '[' || c = '\x7b'
                        | none => false))))))

/-- Rule `global_variable`, pattern `^\s*global\s+\w+`: anchored leading
whitespace, the literal `global`, at least one whitespace character, then at
least one word character. -/
def global_variable_search (l : List Char) : Bool :=
  let t := l.dropWhile pyIsSpace
  litAt t 0 "global".toList &&
    (let t1 := t.drop 6
     !(t1.takeWhile pyIsSpace).isEmpty &&
       !((t1.dropWhile pyIsSpace).takeWhile pyIsWord).isEmpty)

/-- Rule `list_comprehension`, pattern
`for\s+\w+\s+in\s+.*:\s*\n\s*.*\.append\(`: the literal `for` anywhere, forced
maximal whitespace/word runs up to `in`, then — because `\s` overlaps with
both `.` and `\n` — enumerated splits for `\s+.*:`, `\s*\n`, `\s*.*` before
the literal `.append(`.  Any match must consume a literal `\n`. -/
def list_comprehension_search (l : List Char) : Bool :=
  (List.range (l.length + 1)).any fun i =>
    litAt l i "for".toList &&
      (let t1 := l.drop (i + 3)
       !(t1.takeWhile pyIsSpace).isEmpty &&
         (let t2 := t1.dropWhile pyIsSpace
          !(t2.takeWhile pyIsWord).isEmpty &&
            (let t3 := t2.dropWhile pyIsWord
             !(t3.takeWhile pyIsSpace).isEmpty &&
               (let t4 := t3.dropWhile pyIsSpace
                litAt t4 0 "in".toList &&
                  (let t5 := t4.drop 2
                   (List.range (t5.length + 1)).any fun p =>
                     decide (1 ≤ p) && (t5.take p).all pyIsSpace &&
                       (let t6 := t5.drop p
                        (List.range (t6.length + 1)).any fun q =>
                          (t6.take q).all (fun c => c != '\n') &&
                            (let t7 := t6.drop q
                             t7.head? == some ':' &&
                               (let t8 := t7.drop 1
                                (List.range (t8.length + 1)).any fun r =>
                                  (t8.take r).all pyIsSpace &&
                                    (let t9 := t8.drop r
                                     t9.head? == some '\n' &&
                                       (let t10 := t9.drop 1
                                        (List.range (t10.length + 1)).any fun u =>
                                          (t10.take u).all pyIsSpace &&
                                            (let t11 := t10.drop u
                                             (List.range (t11.length + 1)).any fun v =>
                                               (t11.take v).all (fun c => c != '\n') &&
                                                 litAt t11 v ".append(".toList)))))))))))

/-- Rule `string_concatenation` (the pattern is quoted verbatim in
`optimization_patterns`): a word run, whitespace, `+=`, whitespace, a single
or double quote, then a second single or double quote with only non-`\n`
characters in between. -/
def string_concatenation_search (l : List Char) : Bool :=
  (List.range (l.length + 1)).any fun i =>
    let t0 := l.drop i
    !(t0.takeWhile pyIsWord).isEmpty &&
      (let t1 := (t0.dropWhile pyIsWord).dropWhile pyIsSpace
       litAt t1 0 "+=".toList &&
         (let t2 := (t1.drop 2).dropWhile pyIsSpace
          match t2.head? with
          | some c =>
              (c = '"' || c = '\x27') &&
                (let t3 := t2.drop 1
                 (List.range (t3.length + 1)).any fun v =>
                   (t3.take v).all (fun c2 => c2 != '\n') &&
                     (match (t3.drop v).head? with
                      | some c2 => c2 = '"' || c2 = '\x27'
                      | none => false))
          | none => false))

/-- Rule `inefficient_membership`, pattern `\w+\s+in\s+\[.*\]`: a word run, at
least one whitespace character, `in`, at least one whitespace character, `[`,
then `]` with only non-`\n` characters in between. -/
def inefficient_membership_search (l : List Char) : Bool :=
  (List.range (l.length + 1)).any fun i =>
    let t0 := l.drop i
    !(t0.takeWhile pyIsWord).isEmpty &&
      (let t1 := t0.dropWhile pyIsWord
       !(t1.takeWhile pyIsSpace).isEmpty &&
         (let t2 := t1.dropWhile pyIsSpace
          litAt t2 0 "in".toList &&
            (let t3 := t2.drop 2
             !(t3.takeWhile pyIsSpace).isEmpty &&
               (let t4 := t3.dropWhile pyIsSpace
                t4.head? == some '[' &&
                  (let t5 := t4.drop 1
                   (List.range (t5.length + 1)).any fun v =>
                     (t5.take v).all (fun c => c != '\n') &&
                       (t5.drop v).head? == some ']')))))

/-- Rule `repeated_calculation`, pattern `(\w+\([^)]*\)).*\n.*\1`: a call
shape `name(args)` (the word run, the `)`-free argument run and the first
`.*\n` are all forced maximal), a literal `\n`, then the same call text again
on the next line part.  Any match must consume a literal `\n`. -/
def repeated_calculation_search (l : List Char) : Bool :=
  (List.range (l.length + 1)).any fun i =>
    let t0 := l.drop i
    let w := t0.takeWhile pyIsWord
    !w.isEmpty &&
      (let t1 := t0.dropWhile pyIsWord
       t1.head? == some '(' &&
         (let t2 := t1.drop 1
          let inner := t2.takeWhile (fun c => c != ')')
          let t3 := t2.dropWhile (fun c => c != ')')
          t3.head? == some ')' &&
            (let call := w ++ '(' :: inner ++ [')']
             let t4 := t3.drop 1
             let m1 := t4.takeWhile (fun c => c != '\n')
             let t5 := t4.drop m1.length
             t5.head? == some '\n' &&
               (let t6 := t5.drop 1
                (List.range (t6.length + 1)).any fun m2 =>
                  (t6.take m2).all (fun c => c != '\n') &&
                    (t6.drop m2).take call.length == call))))

example : bare_except_search "    except:".toList = true := by decide
example : bare_except_search "except ValueError:".toList = false := by decide
example : magic_number_search "x = 42".toList = true := by decide
example : magic_number_search "x = 4".toList = false := by decide
example : magic_number_search "x = 42.0".toList = false := by decide
example : mutable_default_search "def f(a=[]):".toList = true := by decide
example : global_variable_search "  global x".toList = true := by decide
example : unused_variable_search "x = 3".toList = true := by decide
example : deep_nesting_search "            x".toList = true := by decide
example : string_concatenation_search "s += 'a'".toList = true := by decide
example : inefficient_membership_search "if x in [1]:".toList = true := by decide
example : duplicate_code_search "abc".toList = false := by decide
example : list_comprehension_search "for i in xs:".toList = false := by decide
example : repeated_calculation_search "f(x) + f(x)".toList = false := by decide

/-! ### The Python abstract syntax tree

`PyExpr` / `PyStmt` model the node kinds `CodeAnalyzer` distinguishes.  Every
remaining expression kind is `otherExpr` and every remaining statement kind is
`otherStmt`, both carrying their child nodes so that a walk still visits the
whole subtree.  `ast.ExceptHandler` is modelled as a statement constructor
(it only ever appears in `tryStmt.handlers`).  Every node carries its
`lineno`.  A module is a `List PyStmt` (its body). -/

inductive PyExpr where
  | name (id : String) (lineno : Nat)
  | constantStr (value : String) (lineno : Nat)
  | constantOther (lineno : Nat)
  | listComp (children : List PyExpr) (lineno : Nat)
  | dictComp (children : List PyExpr) (lineno : Nat)
  | setComp (children : List PyExpr) (lineno : Nat)
  | otherExpr (children : List PyExpr) (lineno : Nat)

inductive PyStmt where
  | ifStmt (test : PyExpr) (body orelse : List PyStmt) (lineno : Nat)
  | whileStmt (test : PyExpr) (body orelse : List PyStmt) (lineno : Nat)
  | forStmt (target iter : PyExpr) (body orelse : List PyStmt) (lineno : Nat)
  | tryStmt (body handlers orelse finalbody : List PyStmt) (lineno : Nat)
  | exceptHandler (type? : Option PyExpr) (body : List PyStmt) (lineno : Nat)
  | functionDef (name : String) (argNames : List String) (defaults : List PyExpr)
      (body : List PyStmt) (decorator_list : List PyExpr) (lineno : Nat)
  | asyncFunctionDef (name : String) (argNames : List String) (defaults : List PyExpr)
      (body : List PyStmt) (decorator_list : List PyExpr) (lineno : Nat)
  | classDef (name : String) (bases : List PyExpr) (body : List PyStmt)
      (decorator_list : List PyExpr) (lineno : Nat)
  | importStmt (names : List String) (lineno : Nat)
  | importFrom (module : Option String) (names : List String) (level : Nat) (lineno : Nat)
  | returnStmt (value : Option PyExpr) (lineno : Nat)
  | raiseStmt (exc : Option PyExpr) (lineno : Nat)
  | breakStmt (lineno : Nat)
  | continueStmt (lineno : Nat)
  | exprStmt (value : PyExpr) (lineno : Nat)
  | otherStmt (exprs : List PyExpr) (stmts : List PyStmt) (lineno : Nat)

/-- A node yielded by the walk: the module node or one of its descendants. -/
inductive PyNode where
  | module (body : List PyStmt)
  | stmt (s : PyStmt)
  | expr (e : PyExpr)

mutual
/-- `ast.walk` over an expression: the node followed by its descendants. -/
def walkExpr : PyExpr → List PyNode
  | .name i ln => [.expr (.name i ln)]
  | .constantStr v ln => [.expr (.constantStr v ln)]
  | .constantOther ln => [.expr (.constantOther ln)]
  | .listComp cs ln => .expr (.listComp cs ln) :: walkExprs cs
  | .dictComp cs ln => .expr (.dictComp cs ln) :: walkExprs cs
  | .setComp cs ln => .expr (.setComp cs ln) :: walkExprs cs
  | .otherExpr cs ln => .expr (.otherExpr cs ln) :: walkExprs cs

def walkExprs : List PyExpr → List PyNode
  | [] => []
  | e :: es => walkExpr e ++ walkExprs es
end

/-- Walk of an optional expression child. -/
def walkOptExpr : Option PyExpr → List PyNode
  | none => []
  | some e => walkExpr e

mutual
/-- `ast.walk` over a statement: the node followed by its descendants, in
child-field order.  Python's `ast.walk` is breadth-first; the analyzer only
counts, filters and folds over the visited nodes, so the pre-order used here
is equivalent for everything modelled. -/
def walkStmt : PyStmt → List PyNode
  | .ifStmt t b o ln => .stmt (.ifStmt t b o ln) :: (walkExpr t ++ walkStmts b ++ walkStmts o)
  | .whileStmt t b o ln => .stmt (.whileStmt t b o ln) :: (walkExpr t ++ walkStmts b ++ walkStmts o)
  | .forStmt tg it b o ln =>
      .stmt (.forStmt tg it b o ln) :: (walkExpr tg ++ walkExpr it ++ walkStmts b ++ walkStmts o)
  | .tryStmt b h o f ln =>
      .stmt (.tryStmt b h o f ln) :: (walkStmts b ++ walkStmts h ++ walkStmts o ++ walkStmts f)
  | .exceptHandler t? b ln => .stmt (.exceptHandler t? b ln) :: (walkOptExpr t? ++ walkStmts b)
  | .functionDef nm as ds b dec ln =>
      .stmt (.functionDef nm as ds b dec ln) :: (walkExprs ds ++ walkStmts b ++ walkExprs dec)
  | .asyncFunctionDef nm as ds b dec ln =>
      .stmt (.asyncFunctionDef nm as ds b dec ln) :: (walkExprs ds ++ walkStmts b ++ walkExprs dec)
  | .classDef nm bs b dec ln =>
      .stmt (.classDef nm bs b dec ln) :: (walkExprs bs ++ walkStmts b ++ walkExprs dec)
  | .importStmt ns ln => [.stmt (.importStmt ns ln)]
  | .importFrom m ns lv ln => [.stmt (.importFrom m ns lv ln)]
  | .returnStmt v ln => .stmt (.returnStmt v ln) :: walkOptExpr v
  | .raiseStmt e ln => .stmt (.raiseStmt e ln) :: walkOptExpr e
  | .breakStmt ln => [.stmt (.breakStmt ln)]
  | .continueStmt ln => [.stmt (.continueStmt ln)]
  | .exprStmt e ln => .stmt (.exprStmt e ln) :: walkExpr e
  | .otherStmt es ss ln => .stmt (.otherStmt es ss ln) :: (walkExprs es ++ walkStmts ss)

def walkStmts : List PyStmt → List PyNode
  | [] => []
  | s :: ss => walkStmt s ++ walkStmts ss
end

/-- `ast.walk(tree)` for a parsed module: the `Module` node itself followed by
every descendant. -/
def walkModule (tree : List PyStmt) : List PyNode :=
  .module tree :: walkStmts tree

example :
    walkModule [.breakStmt 1] = [.module [.breakStmt 1], .stmt (.breakStmt 1)] := rfl

example :
    (walkModule [.ifStmt (.name "x" 1) [.breakStmt 2] [] 1]).length = 4 := by decide

/-! ### Node predicates shared by the traversal passes -/

/-- `isinstance(node, (ast.If, ast.While, ast.For))`. -/
def isBranchNode : PyNode → Bool
  | .stmt (.ifStmt ..) | .stmt (.whileStmt ..) | .stmt (.forStmt ..) => true
  | _ => false

/-- `isinstance(node, ast.FunctionDef)` — note that `ast.AsyncFunctionDef` is
*not* a subclass of `ast.FunctionDef` in CPython, so this is false for async
function definitions. -/
def isFunctionDefNode : PyNode → Bool
  | .stmt (.functionDef ..) => true
  | _ => false

/-- `isinstance(node, ast.AsyncFunctionDef)`. -/
def isAsyncFunctionDefNode : PyNode → Bool
  | .stmt (.asyncFunctionDef ..) => true
  | _ => false

/-- `isinstance(node, (ast.For, ast.While))`. -/
def isLoopNode : PyNode → Bool
  | .stmt (.whileStmt ..) | .stmt (.forStmt ..) => true
  | _ => false

/-- `isinstance(node, ast.Return)`. -/
def isReturnNode : PyNode → Bool
  | .stmt (.returnStmt ..) => true
  | _ => false

/-- `isinstance(node, ast.Raise)`. -/
def isRaiseNode : PyNode → Bool
  | .stmt (.raiseStmt ..) => true
  | _ => false

/-- `isinstance(node, ast.Break)`. -/
def isBreakNode : PyNode → Bool
  | .stmt (.breakStmt ..) => true
  | _ => false

/-- `isinstance(node, ast.Continue)`. -/
def isContinueNode : PyNode → Bool
  | .stmt (.continueStmt ..) => true
  | _ => false

/-- `node.lineno`, available on every node except the module. -/
def PyNode.lineno? : PyNode → Option Nat
  | .module _ => none
  | .stmt (.ifStmt _ _ _ ln) => some ln
  | .stmt (.whileStmt _ _ _ ln) => some ln
  | .stmt (.forStmt _ _ _ _ ln) => some ln
  | .stmt (.tryStmt _ _ _ _ ln) => some ln
  | .stmt (.exceptHandler _ _ ln) => some ln
  | .stmt (.functionDef _ _ _ _ _ ln) => some ln
  | .stmt (.asyncFunctionDef _ _ _ _ _ ln) => some ln
  | .stmt (.classDef _ _ _ _ ln) => some ln
  | .stmt (.importStmt _ ln) => some ln
  | .stmt (.importFrom _ _ _ ln) => some ln
  | .stmt (.returnStmt _ ln) => some ln
  | .stmt (.raiseStmt _ ln) => some ln
  | .stmt (.breakStmt ln) => some ln
  | .stmt (.continueStmt ln) => some ln
  | .stmt (.exprStmt _ ln) => some ln
  | .stmt (.otherStmt _ _ ln) => some ln
  | .expr (.name _ ln) => some ln
  | .expr (.constantStr _ ln) => some ln
  | .expr (.constantOther ln) => some ln
  | .expr (.listComp _ ln) => some ln
  | .expr (.dictComp _ ln) => some ln
  | .expr (.setComp _ ln) => some ln
  | .expr (.otherExpr _ ln) => some ln

/-- `ast.get_docstring(node)`: the string constant that is the first body
statement, if any.  (Python also whitespace-cleans the returned text; the
cleaning preserves `None`-ness and is not modelled — no claim depends on
it, and the empty docstring used below is a fixed point of the cleaning.) -/
def get_docstring : List PyStmt → Option String
  | .exprStmt (.constantStr s _) _ :: _ => some s
  | _ => none

/-- Python truthiness of a `str`-or-`None` value: `None` and `""` are falsy. -/
def pyTruthyStr : Option String → Bool
  | none => false
  | some s => s != ""

/-- `base.id if isinstance(base, ast.Name) else str(base)` — the analyzer's
best-effort name resolution; `render` models CPython's `str` on a non-`Name`
AST object (the default object repr, which embeds the object's address). -/
def renderName (render : PyExpr → String) : PyExpr → String
  | .name i _ => i
  | e => render e

/-! ### `_calculate_complexity` -/

/-- The `complexity` defaultdict: absent keys read as `0` everywhere the
analyzer consumes them (`dict.get(_, 0)`), so the mapping is modelled as a
record of counters starting at `0`. -/
structure ComplexityMetrics where
  cyclomatic : Nat
  try_blocks : Nat
  except_blocks : Nat
  functions : Nat
  classes : Nat
  comprehensions : Nat
  max_function_complexity : Nat
  deriving DecidableEq

/-- `sum(1 for n in ast.walk(node) if isinstance(n, (ast.If, ast.While,
ast.For)))` — the per-function local complexity. -/
def funcComplexity (s : PyStmt) : Nat := (walkStmt s).countP isBranchNode

/-- One iteration of the `for node in ast.walk(tree)` loop of
`_calculate_complexity`. -/
def complexity_step (cm : ComplexityMetrics) (n : PyNode) : ComplexityMetrics :=
  match n with
  | .stmt (.ifStmt ..) => { cm with cyclomatic := cm.cyclomatic + 1 }
  | .stmt (.whileStmt ..) => { cm with cyclomatic := cm.cyclomatic + 1 }
  | .stmt (.forStmt ..) => { cm with cyclomatic := cm.cyclomatic + 1 }
  | .stmt (.tryStmt ..) => { cm with try_blocks := cm.try_blocks + 1 }
  | .stmt (.exceptHandler ..) => { cm with except_blocks := cm.except_blocks + 1 }
  | .stmt (.functionDef nm as ds b dec ln) =>
      { cm with
        functions := cm.functions + 1
        max_function_complexity :=
          max cm.max_function_complexity (funcComplexity (.functionDef nm as ds b dec ln)) }
  | .stmt (.asyncFunctionDef nm as ds b dec ln) =>
      { cm with
        functions := cm.functions + 1
        max_function_complexity :=
          max cm.max_function_complexity (funcComplexity (.asyncFunctionDef nm as ds b dec ln)) }
  | .stmt (.classDef ..) => { cm with classes := cm.classes + 1 }
  | .expr (.listComp ..) => { cm with comprehensions := cm.comprehensions + 1 }
  | .expr (.dictComp ..) => { cm with comprehensions := cm.comprehensions + 1 }
  | .expr (.setComp ..) => { cm with comprehensions := cm.comprehensions + 1 }
  | _ => cm

/-- `_calculate_complexity(tree)`. -/
def calculate_complexity (tree : List PyStmt) : ComplexityMetrics :=
  (walkModule tree).foldl complexity_step ⟨0, 0, 0, 0, 0, 0, 0⟩

/-! ### `_extract_patterns` and its helpers -/

inductive Pattern where
  | functionPattern (name signature : String) (line_start length args_count : Nat)
      (returns docstring : Bool) (complexity : Nat)
  | classPattern (name : String) (line_start methods_count : Nat) (bases : List String)
      (docstring has_init : Bool)
  | loopPattern (loop_type : String) (line_start nested_loops : Nat)
      (has_break has_continue : Bool)
  deriving DecidableEq

def Pattern.isFunctionPattern : Pattern → Bool
  | .functionPattern .. => true
  | _ => false

/-- The line numbers of all nodes in a subtree walk
(every node of the subtree walk that has a line number). -/
def walkLinenos (s : PyStmt) : List Nat := (walkStmt s).filterMap PyNode.lineno?

/-- `max(func_lines) - min(func_lines) + 1 if func_lines else 1`. -/
def funcLength (s : PyStmt) : Nat :=
  match walkLinenos s with
  | [] => 1
  | x :: xs => xs.foldl max x - xs.foldl min x + 1

/-- `_analyze_function_pattern(node, content)` for a (synchronous)
`FunctionDef` with the given fields.  The `content` parameter of the Python
method is split into lines and then never used, so it is omitted. -/
def analyze_function_pattern (nm : String) (as : List String) (ds : List PyExpr)
    (b : List PyStmt) (dec : List PyExpr) (ln : Nat) : Pattern :=
  let node : PyStmt := .functionDef nm as ds b dec ln
  .functionPattern nm (nm ++ "(" ++ String.intercalate ", " as ++ ")") ln
    (funcLength node) as.length
    ((walkStmt node).any isReturnNode)
    (get_docstring b).isSome
    ((walkStmt node).countP isBranchNode)

/-- The immediate `FunctionDef` children of a class body
(`[n for n in node.body if isinstance(n, ast.FunctionDef)]`), as their
names paired with the full statement. -/
def classMethods (body : List PyStmt) : List PyStmt :=
  body.filter fun s => match s with
    | .functionDef .. => true
    | _ => false

def methodName : PyStmt → Option String
  | .functionDef nm _ _ _ _ _ => some nm
  | _ => none

/-- `_analyze_class_pattern(node, content)`. -/
def analyze_class_pattern (render : PyExpr → String) (nm : String) (bs : List PyExpr)
    (b : List PyStmt) (ln : Nat) : Pattern :=
  let methods := classMethods b
  .classPattern nm ln methods.length (bs.map (renderName render))
    (get_docstring b).isSome
    (methods.any fun m => methodName m == some "__init__")

/-- `_analyze_loop_pattern(node, content)`.  `nested_loops` counts the
`For`/`While` nodes of the subtree walk other than the node itself (`n !=
node` is an object-identity test in Python; the walk consists of the node and
its proper subterms, so it excludes exactly one node). -/
def analyze_loop_pattern (s : PyStmt) (loopType : String) (ln : Nat) : Pattern :=
  .loopPattern loopType ln ((walkStmt s).countP isLoopNode - 1)
    ((walkStmt s).any isBreakNode)
    ((walkStmt s).any isContinueNode)

/-- `_extract_patterns(tree, content)`: one pattern per (synchronous)
function definition, class definition, or loop in the walk. -/
def extract_patterns (render : PyExpr → String) (tree : List PyStmt) : List Pattern :=
  (walkModule tree).filterMap fun n => match n with
    | .stmt (.functionDef nm as ds b dec ln) =>
        some (analyze_function_pattern nm as ds b dec ln)
    | .stmt (.classDef nm bs b _dec ln) =>
        some (analyze_class_pattern render nm bs b ln)
    | .stmt (.forStmt tg it b o ln) =>
        some (analyze_loop_pattern (.forStmt tg it b o ln) "for" ln)
    | .stmt (.whileStmt t b o ln) =>
        some (analyze_loop_pattern (.whileStmt t b o ln) "while" ln)
    | _ => none

/-! ### `_analyze_functions` and `_analyze_classes` -/

structure FuncInfo where
  name : String
  line_number : Nat
  args : List String
  defaults : Nat
  returns_count : Nat
  raises_count : Nat
  docstring : Option String
  is_async : Bool
  decorators : List String
  deriving DecidableEq

/-- `isinstance(node, ast.AsyncFunctionDef)` as evaluated on a statement. -/
def PyStmt.isAsync : PyStmt → Bool
  | .asyncFunctionDef .. => true
  | _ => false

/-- `_analyze_functions(tree)`: one record per `ast.FunctionDef` in the walk
(async definitions are not `FunctionDef` instances and produce nothing; the
`is_async` field is the `isinstance(node, ast.AsyncFunctionDef)` test on the
matched node). -/
def analyze_functions (render : PyExpr → String) (tree : List PyStmt) : List FuncInfo :=
  (walkModule tree).filterMap fun n => match n with
    | .stmt (.functionDef nm as ds b dec ln) =>
        let node : PyStmt := .functionDef nm as ds b dec ln
        some
          { name := nm
            line_number := ln
            args := as
            defaults := ds.length
            returns_count := (walkStmt node).countP isReturnNode
            raises_count := (walkStmt node).countP isRaiseNode
            docstring := get_docstring b
            is_async := node.isAsync
            decorators := dec.map (renderName render) }
    | _ => none

structure ClassInfo where
  name : String
  line_number : Nat
  methods : List String
  base_classes : List String
  docstring : Option String
  decorators : List String
  deriving DecidableEq

/-- `_analyze_classes(tree)`. -/
def analyze_classes (render : PyExpr → String) (tree : List PyStmt) : List ClassInfo :=
  (walkModule tree).filterMap fun n => match n with
    | .stmt (.classDef nm bs b dec ln) =>
        some
          { name := nm
            line_number := ln
            methods := (classMethods b).filterMap methodName
            base_classes := bs.map (renderName render)
            docstring := get_docstring b
            decorators := dec.map (renderName render) }
    | _ => none

/-! ### `_analyze_imports` -/

structure Imports where
  standard : List String
  third_party : List String
  relative : List String
  deriving DecidableEq

/-- The fixed standard-library name set of `_analyze_imports`. -/
def stdlib_modules : List String :=
  ["os", "sys", "json", "time", "datetime", "collections", "itertools",
   "functools", "operator", "pathlib", "typing", "dataclasses", "enum",
   "logging", "unittest", "sqlite3", "pickle", "csv", "xml", "html",
   "urllib", "http", "email", "calendar", "locale", "platform"]

/-- One iteration of the `for node in ast.walk(tree)` loop of
`_analyze_imports`.  For a plain `Import`, each alias is classified by the
first dotted segment of its name; for an `ImportFrom` with `level > 0` one
entry `f".{node.module}" if node.module else "."` is appended to `relative`;
otherwise the module (the empty string when absent/falsy) is classified by its first
segment. -/
def import_step (acc : Imports) (n : PyNode) : Imports :=
  match n with
  | .stmt (.importStmt names _) =>
      names.foldl
        (fun a nm =>
          if stdlib_modules.contains (firstSegment nm) then
            { a with standard := a.standard ++ [nm] }
          else
            { a with third_party := a.third_party ++ [nm] })
        acc
  | .stmt (.importFrom m _ level _) =>
      if 0 < level then
        { acc with
          relative := acc.relative ++ [if pyTruthyStr m then "." ++ m.getD "" else "."] }
      else
        let module := if pyTruthyStr m then firstSegment (m.getD "") else ""
        let entry := if pyTruthyStr m then m.getD "" else ""
        if stdlib_modules.contains module then
          { acc with standard := acc.standard ++ [entry] }
        else
          { acc with third_party := acc.third_party ++ [entry] }
  | _ => acc

/-- `_analyze_imports(tree)`. -/
def analyze_imports (tree : List PyStmt) : Imports :=
  (walkModule tree).foldl import_step ⟨[], [], []⟩

/-! ### The lexical scan: `_detect_potential_bugs` / `_find_optimizations` -/

inductive BugType where
  | unused_variable | duplicate_code | long_line | deep_nesting
  | magic_number | bare_except | mutable_default | global_variable
  deriving DecidableEq

inductive Severity where
  | low | medium | high | critical
  deriving DecidableEq

inductive Impact where
  | low | medium | high
  deriving DecidableEq

/-- `self.bug_patterns`: rule id, pattern source text, and the embedded
matcher, in dict insertion order. -/
def bug_patterns : List (BugType × String × (List Char → Bool)) :=
  [(.unused_variable, "^\\s*(\\w+)\\s*=.*$(?!\\n.*\\1)", unused_variable_search),
   (.duplicate_code, "(.\x7b20,\x7d)\\n(?:.*\\n)*?\\1", duplicate_code_search),
   (.long_line, "^.\x7b120,\x7d$", long_line_search),
   (.deep_nesting, "^(\\s\x7b12,\x7d)", deep_nesting_search),
   (.magic_number, "\\b(?<![\\w.])\\d\x7b2,\x7d\\b(?![\\w.])", magic_number_search),
   (.bare_except, "except\\s*:", bare_except_search),
   (.mutable_default, "def\\s+\\w+\\([^)]*=\\s*[\\[\\\x7b]", mutable_default_search),
   (.global_variable, "^\\s*global\\s+\\w+", global_variable_search)]

/-- `_assess_bug_severity`: the fixed severity table; every rule id is in the
table, so the `low` default of the `.get` lookup is never taken. -/
def assess_bug_severity : BugType → Severity
  | .unused_variable => .low
  | .duplicate_code => .medium
  | .long_line => .low
  | .deep_nesting => .medium
  | .magic_number => .low
  | .bare_except => .high
  | .mutable_default => .high
  | .global_variable => .medium

structure BugDiag where
  type : BugType
  line : Nat
  content : String
  severity : Severity
  pattern : String
  deriving DecidableEq

/-- The diagnostics one line contributes, in rule order. -/
def lineBugs (lineNum : Nat) (l : List Char) : List BugDiag :=
  bug_patterns.filterMap fun r =>
    if r.2.2 l then
      some
        { type := r.1
          line := lineNum
          content := String.mk (pyStrip l)
          severity := assess_bug_severity r.1
          pattern := r.2.1 }
    else none

/-- The `for line_num, line in enumerate(lines, 1)` loop of
`_detect_potential_bugs`. -/
def scanBugs : Nat → List (List Char) → List BugDiag
  | _, [] => []
  | i, l :: ls => lineBugs i l ++ scanBugs (i + 1) ls

/-- `_detect_potential_bugs(content)`. -/
def detect_potential_bugs (content : String) : List BugDiag :=
  scanBugs 1 (pySplitlines content)

inductive OptType where
  | list_comprehension | string_concatenation | inefficient_membership | repeated_calculation
  deriving DecidableEq

/-- `self.optimization_patterns`, in dict insertion order. -/
def optimization_patterns : List (OptType × String × (List Char → Bool)) :=
  [(.list_comprehension, "for\\s+\\w+\\s+in\\s+.*:\\s*\\n\\s*.*\\.append\\(", list_comprehension_search),
   (.string_concatenation, "\\w+\\s*\\+=\\s*[\"\\\x27].*[\"\\\x27]", string_concatenation_search),
   (.inefficient_membership, "\\w+\\s+in\\s+\\[.*\\]", inefficient_membership_search),
   (.repeated_calculation, "(\\w+\\([^)]*\\)).*\\n.*\\1", repeated_calculation_search)]

/-- `_generate_optimization_suggestion` (every rule id is in the table, so
the `"Consider optimization"` default is never taken). -/
def generate_optimization_suggestion : OptType → String
  | .list_comprehension => "Consider using list comprehension for better performance"
  | .string_concatenation => "Use f-strings or join() for string concatenation"
  | .inefficient_membership => "Use set for membership testing instead of list"
  | .repeated_calculation => "Cache the result to avoid repeated calculations"

/-- `_assess_optimization_impact`: every rule id is in the table, so the
`low` default of the `.get` lookup is never taken. -/
def assess_optimization_impact : OptType → Impact
  | .list_comprehension => .medium
  | .string_concatenation => .high
  | .inefficient_membership => .high
  | .repeated_calculation => .medium

structure OptHint where
  type : OptType
  line : Nat
  original : String
  suggestion : String
  impact : Impact
  deriving DecidableEq

/-- The hints one line contributes, in rule order. -/
def lineOpts (lineNum : Nat) (l : List Char) : List OptHint :=
  optimization_patterns.filterMap fun r =>
    if r.2.2 l then
      some
        { type := r.1
          line := lineNum
          original := String.mk (pyStrip l)
          suggestion := generate_optimization_suggestion r.1
          impact := assess_optimization_impact r.1 }
    else none

/-- The `for line_num, line in enumerate(lines, 1)` loop of
`_find_optimizations`. -/
def scanOpts : Nat → List (List Char) → List OptHint
  | _, [] => []
  | i, l :: ls => lineOpts i l ++ scanOpts (i + 1) ls

/-- `_find_optimizations(content)`. -/
def find_optimizations (content : String) : List OptHint :=
  scanOpts 1 (pySplitlines content)

/-! ### `_calculate_quality_score`

Python computes the score in `float`; the formula is small integer and ratio
arithmetic, modelled exactly over `ℚ`. -/

/-- The per-diagnostic deduction of the `for bug in bugs` loop: `critical`
−20, `high` −10, `medium` −5, anything else (i.e. `low`) −2. -/
def severityPenalty : Severity → ℚ
  | .critical => 20
  | .high => 10
  | .medium => 5
  | _ => 2

/-- The successive `score` updates of `_calculate_quality_score(analysis)`
before the final clamp, as a function of the three fields of the analysis
dict the method reads: `potential_bugs`, `complexity` and `functions`.
(`optimization_opportunities` is present in the dict but never read by the
scoring code.)  The docstring bonus counts the *truthiness* of each stored
docstring: `None` and the empty string contribute nothing. -/
def rawQualityScore (bugs : List BugDiag) (complexity : ComplexityMetrics)
    (functions : List FuncInfo) : ℚ :=
  let score : ℚ := 100
  let score := bugs.foldl (fun s b => s - severityPenalty b.severity) score
  let score :=
    if 10 < complexity.max_function_complexity then
      score - ((complexity.max_function_complexity : ℚ) - 10) * 3
    else score
  let score :=
    if functions.isEmpty then score
    else
      score +
        ((functions.countP fun f => pyTruthyStr f.docstring : ℚ) / (functions.length : ℚ)) * 10
  score

/-- `_calculate_quality_score(analysis)`: the updated score clamped by
`max(0.0, min(100.0, score))`. -/
def calculate_quality_score (bugs : List BugDiag) (complexity : ComplexityMetrics)
    (functions : List FuncInfo) : ℚ :=
  max 0 (min 100 (rawQualityScore bugs complexity functions))

/-! ### `analyze_file` -/

/-- The result record of `analyze_file`: the full success dict or the
three-key failure dict.  The Python code returns one of two dict literals;
each return site fixes the exact key set, so the result is a sum. -/
inductive FileAnalysis where
  | success (file_path : String) (lines_of_code : Nat) (complexity : ComplexityMetrics)
      (patterns : List Pattern) (functions : List FuncInfo) (classes : List ClassInfo)
      (imports : Imports) (potential_bugs : List BugDiag)
      (optimization_opportunities : List OptHint) (code_quality_score : ℚ)
      (analyzed_at : Nat)
  | failure (file_path : String) (error : String) (analyzed_at : Nat)
  deriving DecidableEq

/-- `analyze_file(file_path)`.  `readParse` is the outcome of the
`open`/`read`/`ast.parse` prefix of the `try` block (`.error msg` when any of
them raises, with `str(e) = msg`), `now` models `time.time()`, and `render`
models `str` on non-`Name` AST objects (see the header).  On success every
field is computed exactly as in the source, including the quality score
computed from the just-assembled `potential_bugs`, `complexity` and
`functions` entries. -/
def analyze_file (render : PyExpr → String) (file_path : String)
    (readParse : Except String (String × List PyStmt)) (now : Nat) : FileAnalysis :=
  match readParse with
  | .error e => .failure file_path e now
  | .ok (content, tree) =>
      let complexity := calculate_complexity tree
      let functions := analyze_functions render tree
      let potential_bugs := detect_potential_bugs content
      .success file_path (pySplitlines content).length complexity
        (extract_patterns render tree) functions (analyze_classes render tree)
        (analyze_imports tree) potential_bugs (find_optimizations content)
        (calculate_quality_score potential_bugs complexity functions) now

/-- The quality score of a success record. -/
def FileAnalysis.qualityScore? : FileAnalysis → Option ℚ
  | .success _ _ _ _ _ _ _ _ _ q _ => some q
  | .failure .. => none

/-- Whether the success variant was produced. -/
def FileAnalysis.isSuccess : FileAnalysis → Bool
  | .success .. => true
  | .failure .. => false

/-- Whether the failure variant was produced. -/
def FileAnalysis.isFailure : FileAnalysis → Bool
  | .success .. => false
  | .failure .. => true

/-- The record with its timestamp normalized, for comparing two runs on
everything except `analyzed_at`. -/
def FileAnalysis.eraseTimestamp : FileAnalysis → FileAnalysis
  | .success p loc cm pats fns cls imp bugs opts q _ =>
      .success p loc cm pats fns cls imp bugs opts q 0
  | .failure p e _ => .failure p e 0

/-- Drop the decorator strings of a function detail — the only field of the
record whose value can pass through the `str(ast_node)` fallback. -/
def FuncInfo.eraseDecorators (f : FuncInfo) : FuncInfo := { f with decorators := [] }

/-- Drop the base-class and decorator strings of a class detail — the only
fields whose values can pass through the `str(ast_node)` fallback. -/
def ClassInfo.eraseRendered (c : ClassInfo) : ClassInfo :=
  { c with base_classes := [], decorators := [] }

/-- Drop the base-class strings of a class pattern — the only pattern field
whose value can pass through the `str(ast_node)` fallback. -/
def Pattern.eraseBases : Pattern → Pattern
  | .classPattern nm ls mc _ d hi => .classPattern nm ls mc [] d hi
  | p => p

/-- The record with the timestamp normalized and every string list that can
contain a `str(ast_node)` fallback rendering removed: what is left is exactly
the data the amended C8 asserts to agree between two runs on any file. -/
def FileAnalysis.eraseRendered : FileAnalysis → FileAnalysis
  | .success p loc cm pats fns cls imp bugs opts q _ =>
      .success p loc cm (pats.map Pattern.eraseBases) (fns.map FuncInfo.eraseDecorators)
        (cls.map ClassInfo.eraseRendered) imp bugs opts q 0
  | .failure p e _ => .failure p e 0

/-! ### Specification-side definitions

The definitions in this section are written from the *wording of the spec and
claims* (not from the source), to be compared with the embedded code above. -/

/-- `isinstance(node, ast.Try)`. -/
def isTryNode : PyNode → Bool
  | .stmt (.tryStmt ..) => true
  | _ => false

/-- `isinstance(node, ast.ExceptHandler)`. -/
def isExceptHandlerNode : PyNode → Bool
  | .stmt (.exceptHandler ..) => true
  | _ => false

/-- `isinstance(node, ast.ClassDef)`. -/
def isClassDefNode : PyNode → Bool
  | .stmt (.classDef ..) => true
  | _ => false

/-- `isinstance(node, (ast.ListComp, ast.DictComp, ast.SetComp))`. -/
def isComprehensionNode : PyNode → Bool
  | .expr (.listComp ..) | .expr (.dictComp ..) | .expr (.setComp ..) => true
  | _ => false

/-- For a function definition (sync or async), its local complexity: the
count of conditional / for-loop / while-loop nodes anywhere in its subtree,
including nested functions' bodies.  `none` for every other node. -/
def funcLocal : PyNode → Option Nat
  | .stmt (.functionDef nm as ds b dec ln) =>
      some ((walkStmt (.functionDef nm as ds b dec ln)).countP isBranchNode)
  | .stmt (.asyncFunctionDef nm as ds b dec ln) =>
      some ((walkStmt (.asyncFunctionDef nm as ds b dec ln)).countP isBranchNode)
  | _ => none

/-- Claim C1's scoring formula, exactly as worded: start at 100; subtract 20
per critical, 10 per high, 5 per medium and 2 per low severity diagnostic;
subtract `(maxFunctionComplexity − 10) × 3` when `maxFunctionComplexity >
10`; add `10 × (count of functions having a docstring / total function
count)` when the function list is non-empty — "having a docstring" read as
the docstring being present; clamp to `[0, 100]`. -/
def spec_quality_score (bugs : List BugDiag) (complexity : ComplexityMetrics)
    (functions : List FuncInfo) : ℚ :=
  let base : ℚ :=
    100 - 20 * (bugs.countP fun b => b.severity = .critical : ℚ)
      - 10 * (bugs.countP fun b => b.severity = .high : ℚ)
      - 5 * (bugs.countP fun b => b.severity = .medium : ℚ)
      - 2 * (bugs.countP fun b => b.severity = .low : ℚ)
  let base :=
    if 10 < complexity.max_function_complexity then
      base - ((complexity.max_function_complexity : ℚ) - 10) * 3
    else base
  let base :=
    if functions.isEmpty then base
    else
      base + 10 * ((functions.countP fun f => f.docstring.isSome : ℚ) / (functions.length : ℚ))
  max 0 (min 100 base)

/-- The amended C1 formula: identical to `spec_quality_score` except that a
function counts towards the docstring bonus only when its docstring is
present *and non-empty* (Python truthiness of the stored docstring). -/
def spec_quality_score_amended (bugs : List BugDiag) (complexity : ComplexityMetrics)
    (functions : List FuncInfo) : ℚ :=
  let base : ℚ :=
    100 - 20 * (bugs.countP fun b => b.severity = .critical : ℚ)
      - 10 * (bugs.countP fun b => b.severity = .high : ℚ)
      - 5 * (bugs.countP fun b => b.severity = .medium : ℚ)
      - 2 * (bugs.countP fun b => b.severity = .low : ℚ)
  let base :=
    if 10 < complexity.max_function_complexity then
      base - ((complexity.max_function_complexity : ℚ) - 10) * 3
    else base
  let base :=
    if functions.isEmpty then base
    else
      base + 10 * ((functions.countP fun f => pyTruthyStr f.docstring : ℚ) / (functions.length : ℚ))
  max 0 (min 100 base)

/-- Claim C7's rendering of a relative import: the module name prefixed by
one leading dot *per relative level*, or a single dot when the module name is
empty/absent. -/
def spec_render_relative (level : Nat) (module : Option String) : String :=
  match module with
  | some s => if s != "" then String.mk (List.replicate level '.') ++ s else "."
  | none => "."

/-- The single-dot rendering the code actually performs
(`f".{node.module}" if node.module else "."`). -/
def code_render_relative (module : Option String) : String :=
  if pyTruthyStr module then "." ++ module.getD "" else "."

/-- The `relative` entry a node contributes (from-imports with nonzero
relative level, regardless of module name), for the amended C7
characterization. -/
def relative_entry : PyNode → Option String
  | .stmt (.importFrom m _ level _) =>
      if 0 < level then some (code_render_relative m) else none
  | _ => none

/-- The `standard` entries a node contributes: plain-import aliases and
level-0 from-import modules whose first dotted-path segment is in the fixed
standard-library set. -/
def standard_entries : PyNode → List String
  | .stmt (.importStmt names _) =>
      names.filter fun nm => stdlib_modules.contains (firstSegment nm)
  | .stmt (.importFrom m _ level _) =>
      if 0 < level then []
      else
        let entry := if pyTruthyStr m then m.getD "" else ""
        if stdlib_modules.contains (if pyTruthyStr m then firstSegment (m.getD "") else "") then
          [entry]
        else []
  | _ => []

/-- The `third_party` entries a node contributes: the complementary
classification of `standard_entries`. -/
def third_party_entries : PyNode → List String
  | .stmt (.importStmt names _) =>
      names.filter fun nm => !stdlib_modules.contains (firstSegment nm)
  | .stmt (.importFrom m _ level _) =>
      if 0 < level then []
      else
        let entry := if pyTruthyStr m then m.getD "" else ""
        if stdlib_modules.contains (if pyTruthyStr m then firstSegment (m.getD "") else "") then
          []
        else [entry]
  | _ => []

/-- Every decorator and base-class expression in the tree is a simple name
(`ast.Name`), so the `str(ast_node)` fallback is never consulted. -/
def nodeSimpleNames : PyNode → Bool
  | .stmt (.functionDef _ _ _ _ dec _) =>
      dec.all fun e => match e with | .name .. => true | _ => false
  | .stmt (.classDef _ bs _ dec _) =>
      (bs.all fun e => match e with | .name .. => true | _ => false) &&
        (dec.all fun e => match e with | .name .. => true | _ => false)
  | _ => true

def treeSimpleNames (tree : List PyStmt) : Bool :=
  (walkModule tree).all nodeSimpleNames

/-! ### Score lemmas -/

/-- The diagnostic loop of the score subtracts exactly the per-severity
counts weighted 20/10/5/2. -/
theorem foldl_severityPenalty (bugs : List BugDiag) (s : ℚ) :
    bugs.foldl (fun a b => a - severityPenalty b.severity) s =
      s - 20 * (bugs.countP fun b => b.severity = .critical : ℚ)
        - 10 * (bugs.countP fun b => b.severity = .high : ℚ)
        - 5 * (bugs.countP fun b => b.severity = .medium : ℚ)
        - 2 * (bugs.countP fun b => b.severity = .low : ℚ) := by
  induction bugs generalizing s with
  | nil => simp
  | cons b bs ih =>
    simp only [List.foldl_cons, List.countP_cons, ih]
    cases hb : b.severity <;> simp [severityPenalty, hb] <;> ring

/-- The clamp keeps every value in `[0, 100]`. -/
theorem clamp_mem (x : ℚ) : 0 ≤ max 0 (min 100 x) ∧ max 0 (min 100 x) ≤ 100 :=
  ⟨le_max_left 0 _, max_le (by norm_num) (min_le_left _ _)⟩

/-- Appending one high-severity diagnostic lowers the unclamped score by
exactly 10, everything else held fixed. -/
theorem rawQualityScore_append_high (bugs : List BugDiag) (cm : ComplexityMetrics)
    (fns : List FuncInfo) (d : BugDiag) (hd : d.severity = .high) :
    rawQualityScore (bugs ++ [d]) cm fns = rawQualityScore bugs cm fns - 10 := by
  simp only [rawQualityScore, List.foldl_append, List.foldl_cons, List.foldl_nil, hd,
    severityPenalty]
  by_cases h1 : 10 < cm.max_function_complexity <;> by_cases h2 : fns.isEmpty <;>
    simp [h1, h2] <;> ring

/-- The code's score equals the amended C1 formula (docstring bonus counting
only non-empty docstrings). -/
theorem calculate_quality_score_eq_spec_amended (bugs : List BugDiag)
    (cm : ComplexityMetrics) (fns : List FuncInfo) :
    calculate_quality_score bugs cm fns = spec_quality_score_amended bugs cm fns := by
  simp only [calculate_quality_score, rawQualityScore, spec_quality_score_amended,
    foldl_severityPenalty]
  by_cases h1 : 10 < cm.max_function_complexity <;> by_cases h2 : fns.isEmpty <;>
    simp only [h1, h2, if_true, if_false, Bool.false_eq_true, if_neg, if_pos] <;> ring_nf

/-- Case analysis of the clamp under a drop of exactly 10: the clamped value
drops by exactly 10, or lands on the lower clamp 0, or the value started at
the upper clamp 100 and drops by strictly less than 10 (possibly 0). -/
theorem clamp_sub_ten (r : ℚ) :
    max 0 (min 100 (r - 10)) = max 0 (min 100 r) - 10 ∨
      max 0 (min 100 (r - 10)) = 0 ∨
      (max 0 (min 100 r) = 100 ∧
        max 0 (min 100 r) - 10 < max 0 (min 100 (r - 10)) ∧
        max 0 (min 100 (r - 10)) ≤ max 0 (min 100 r)) := by
  by_cases hA : 100 < r
  · have hold : max 0 (min 100 r) = 100 := by rw [min_eq_left hA.le]; norm_num
    refine Or.inr (Or.inr ⟨hold, ?_, ?_⟩)
    · rw [hold]
      by_cases hB : r - 10 ≤ 100
      · rw [min_eq_right hB, max_eq_right (by linarith : (0 : ℚ) ≤ r - 10)]
        linarith
      · push_neg at hB
        rw [min_eq_left hB.le]
        norm_num
    · rw [hold]
      exact (clamp_mem (r - 10)).2
  · push_neg at hA
    by_cases hB : r - 10 < 0
    · refine Or.inr (Or.inl ?_)
      rw [min_eq_right (by linarith : r - 10 ≤ 100)]
      exact max_eq_left hB.le
    · push_neg at hB
      refine Or.inl ?_
      rw [min_eq_right (by linarith : r - 10 ≤ 100), min_eq_right hA,
        max_eq_right hB, max_eq_right (by linarith : (0 : ℚ) ≤ r)]

/-! ### Traversal lemmas -/

/-- Characterization of the `_calculate_complexity` loop from an arbitrary
accumulator: each counter grows by the per-kind node count, and the running
maximum folds the local complexities of the visited function definitions. -/
theorem foldl_complexity_step (ns : List PyNode) (cm : ComplexityMetrics) :
    ns.foldl complexity_step cm =
      { cyclomatic := cm.cyclomatic + ns.countP isBranchNode
        try_blocks := cm.try_blocks + ns.countP isTryNode
        except_blocks := cm.except_blocks + ns.countP isExceptHandlerNode
        functions :=
          cm.functions + ns.countP fun n => isFunctionDefNode n || isAsyncFunctionDefNode n
        classes := cm.classes + ns.countP isClassDefNode
        comprehensions := cm.comprehensions + ns.countP isComprehensionNode
        max_function_complexity :=
          (ns.filterMap funcLocal).foldl max cm.max_function_complexity } := by
  induction ns generalizing cm with
  | nil => simp
  | cons n ns ih =>
    rw [List.foldl_cons, ih]
    cases n with
    | module b =>
        simp [complexity_step, funcLocal, List.countP_cons, isBranchNode, isTryNode,
          isExceptHandlerNode, isFunctionDefNode, isAsyncFunctionDefNode, isClassDefNode,
          isComprehensionNode]
    | stmt s =>
        cases s <;>
          simp [complexity_step, funcLocal, funcComplexity, List.countP_cons, isBranchNode,
            isTryNode, isExceptHandlerNode, isFunctionDefNode, isAsyncFunctionDefNode,
            isClassDefNode, isComprehensionNode, ComplexityMetrics.mk.injEq,
            Nat.add_right_comm, Nat.add_assoc] <;> try omega
    | expr e =>
        cases e <;>
          simp [complexity_step, funcLocal, List.countP_cons, isBranchNode, isTryNode,
            isExceptHandlerNode, isFunctionDefNode, isAsyncFunctionDefNode, isClassDefNode,
            isComprehensionNode, ComplexityMetrics.mk.injEq, Nat.add_right_comm, Nat.add_assoc]

/-! ### List utilities -/

theorem mem_of_head?_eq {α : Type} {l : List α} {a : α} (h : l.head? = some a) : a ∈ l := by
  cases l with
  | nil => simp at h
  | cons x xs => simp at h; simp [h]

theorem dropWhile_subset' {α : Type} (p : α → Bool) (l : List α) : l.dropWhile p ⊆ l := by
  induction l with
  | nil => simp
  | cons x xs ih =>
    by_cases h : p x
    · rw [List.dropWhile_cons_of_pos h]
      exact fun a ha => List.mem_cons_of_mem x (ih ha)
    · rw [List.dropWhile_cons_of_neg h]
      exact fun a ha => ha

theorem foldl_max_init_le (l : List Nat) (a : Nat) : a ≤ l.foldl max a := by
  induction l generalizing a with
  | nil => simp
  | cons x xs ih => exact le_trans (le_max_left a x) (ih (max a x))

theorem le_foldl_max (l : List Nat) (a x : Nat) (hx : x ∈ l) : x ≤ l.foldl max a := by
  induction l generalizing a with
  | nil => cases hx
  | cons y ys ih =>
    rcases List.mem_cons.mp hx with rfl | hmem
    · exact le_trans (le_max_right a x) (foldl_max_init_le ys (max a x))
    · exact ih (max a y) hmem

/-! ### Lines produced by `splitlines` contain no line break -/

theorem splitlinesAux_no_break (cs : List Char) (acc : List Char)
    (hacc : ∀ c ∈ acc, isLineBreak c = false) :
    ∀ l ∈ splitlinesAux cs acc, ∀ c ∈ l, isLineBreak c = false := by
  induction cs generalizing acc with
  | nil =>
    intro l hl
    by_cases h : acc.isEmpty <;> simp [splitlinesAux, h] at hl
    subst hl
    intro c hc
    exact hacc c (List.mem_reverse.mp hc)
  | cons c' cs ih =>
    intro l hl
    by_cases hb : isLineBreak c'
    · simp only [splitlinesAux, hb, if_true, List.mem_cons] at hl
      rcases hl with rfl | hl
      · intro c hc
        exact hacc c (List.mem_reverse.mp hc)
      · exact ih [] (by simp) l hl
    · simp only [splitlinesAux, hb, if_false, Bool.false_eq_true] at hl
      refine ih (c' :: acc) ?_ l hl
      intro c hc
      rcases List.mem_cons.mp hc with rfl | hc
      · simpa using hb
      · exact hacc c hc

/-- No physical line returned by `splitlines` contains `\n`. -/
theorem pySplitlines_no_newline (content : String) :
    ∀ l ∈ pySplitlines content, '\n' ∉ l := by
  intro l hl hmem
  have := splitlinesAux_no_break (normalizeCRLF content.toList) [] (by simp) l hl '\n' hmem
  simp [isLineBreak] at this

/-! ### The three multi-line-only rules need a literal newline -/

theorem duplicate_code_search_newline {l : List Char}
    (h : duplicate_code_search l = true) : '\n' ∈ l := by
  simp only [duplicate_code_search, List.any_eq_true, Bool.and_eq_true, decide_eq_true_eq,
    beq_iff_eq, List.mem_range] at h
  obtain ⟨i, -, -, h1, -⟩ := h
  exact List.drop_subset _ _ (List.drop_subset _ _ (mem_of_head?_eq h1))

theorem list_comprehension_search_newline {l : List Char}
    (h : list_comprehension_search l = true) : '\n' ∈ l := by
  simp only [list_comprehension_search] at h
  rw [List.any_eq_true] at h; obtain ⟨i, -, h⟩ := h
  rw [Bool.and_eq_true] at h; obtain ⟨-, h⟩ := h
  rw [Bool.and_eq_true] at h; obtain ⟨-, h⟩ := h
  rw [Bool.and_eq_true] at h; obtain ⟨-, h⟩ := h
  rw [Bool.and_eq_true] at h; obtain ⟨-, h⟩ := h
  rw [Bool.and_eq_true] at h; obtain ⟨-, h⟩ := h
  rw [List.any_eq_true] at h; obtain ⟨p, -, h⟩ := h
  rw [Bool.and_eq_true] at h; obtain ⟨-, h⟩ := h
  rw [List.any_eq_true] at h; obtain ⟨q, -, h⟩ := h
  rw [Bool.and_eq_true] at h; obtain ⟨-, h⟩ := h
  rw [Bool.and_eq_true] at h; obtain ⟨-, h⟩ := h
  rw [List.any_eq_true] at h; obtain ⟨r, -, h⟩ := h
  rw [Bool.and_eq_true] at h; obtain ⟨-, h⟩ := h
  rw [Bool.and_eq_true] at h; obtain ⟨h9, -⟩ := h
  rw [beq_iff_eq] at h9
  have m1 := mem_of_head?_eq h9
  have m2 := List.drop_subset _ _ m1
  have m3 := List.drop_subset _ _ m2
  have m4 := List.drop_subset _ _ m3
  have m5 := List.drop_subset _ _ m4
  have m6 := List.drop_subset _ _ m5
  have m7 := dropWhile_subset' _ _ m6
  have m8 := dropWhile_subset' _ _ m7
  have m9 := dropWhile_subset' _ _ m8
  exact List.drop_subset _ _ m9

theorem repeated_calculation_search_newline {l : List Char}
    (h : repeated_calculation_search l = true) : '\n' ∈ l := by
  simp only [repeated_calculation_search] at h
  rw [List.any_eq_true] at h; obtain ⟨i, -, h⟩ := h
  rw [Bool.and_eq_true] at h; obtain ⟨-, h⟩ := h
  rw [Bool.and_eq_true] at h; obtain ⟨-, h⟩ := h
  rw [Bool.and_eq_true] at h; obtain ⟨-, h⟩ := h
  rw [Bool.and_eq_true] at h; obtain ⟨h5, -⟩ := h
  rw [beq_iff_eq] at h5
  have m1 := mem_of_head?_eq h5
  have m2 := List.drop_subset _ _ m1
  have m3 := List.drop_subset _ _ m2
  have m4 := dropWhile_subset' _ _ m3
  have m5 := List.drop_subset _ _ m4
  have m6 := dropWhile_subset' _ _ m5
  exact List.drop_subset _ _ m6

/-- `all` over a guarded `filterMap`: it suffices that every rule whose guard
fires emits a record satisfying `p`. -/
theorem all_filterMap_if {α β : Type} (rules : List α) (emit : α → β) (cond : α → Bool)
    (p : β → Bool) (h : ∀ r ∈ rules, cond r = true → p (emit r) = true) :
    (rules.filterMap (fun r => if cond r then some (emit r) else none)).all p = true := by
  induction rules with
  | nil => rfl
  | cons r rs ih =>
    simp only [List.filterMap_cons]
    by_cases hc : cond r
    · simp only [hc, if_true, List.all_cons, Bool.and_eq_true]
      exact ⟨h r (List.mem_cons_self r rs) hc,
        ih fun r' hr' => h r' (List.mem_cons_of_mem r hr')⟩
    · simp only [hc, if_false, Bool.false_eq_true]
      exact ih fun r' hr' => h r' (List.mem_cons_of_mem r hr')

theorem lineBugs_no_duplicate_code (i : Nat) (l : List Char) (hl : '\n' ∉ l) :
    ((lineBugs i l).all fun d => decide (d.type ≠ BugType.duplicate_code)) = true := by
  refine all_filterMap_if bug_patterns _ _ _ ?_
  intro r hr
  simp only [bug_patterns, List.mem_cons, List.not_mem_nil, or_false] at hr
  rcases hr with rfl | rfl | rfl | rfl | rfl | rfl | rfl | rfl <;> intro hsearch <;>
    simp only [decide_eq_true_eq] <;> try exact fun hne => BugType.noConfusion hne
  exact absurd (duplicate_code_search_newline hsearch) hl

theorem scanBugs_no_duplicate_code (i : Nat) (ls : List (List Char))
    (hls : ∀ l ∈ ls, '\n' ∉ l) :
    ((scanBugs i ls).all fun d => decide (d.type ≠ BugType.duplicate_code)) = true := by
  induction ls generalizing i with
  | nil => rfl
  | cons l ls ih =>
    simp only [scanBugs, List.all_append, Bool.and_eq_true]
    exact ⟨lineBugs_no_duplicate_code i l (hls l (List.mem_cons_self l ls)),
      ih (i + 1) fun l' hl' => hls l' (List.mem_cons_of_mem l hl')⟩

theorem lineOpts_no_multiline (i : Nat) (l : List Char) (hl : '\n' ∉ l) :
    ((lineOpts i l).all fun o =>
      decide (o.type ≠ OptType.list_comprehension) &&
        decide (o.type ≠ OptType.repeated_calculation)) = true := by
  refine all_filterMap_if optimization_patterns _ _ _ ?_
  intro r hr
  simp only [optimization_patterns, List.mem_cons, List.not_mem_nil, or_false] at hr
  rcases hr with rfl | rfl | rfl | rfl <;> intro hsearch <;>
    simp only [Bool.and_eq_true, decide_eq_true_eq]
  · exact absurd (list_comprehension_search_newline hsearch) hl
  · exact ⟨fun hne => OptType.noConfusion hne, fun hne => OptType.noConfusion hne⟩
  · exact ⟨fun hne => OptType.noConfusion hne, fun hne => OptType.noConfusion hne⟩
  · exact absurd (repeated_calculation_search_newline hsearch) hl

theorem scanOpts_no_multiline (i : Nat) (ls : List (List Char))
    (hls : ∀ l ∈ ls, '\n' ∉ l) :
    ((scanOpts i ls).all fun o =>
      decide (o.type ≠ OptType.list_comprehension) &&
        decide (o.type ≠ OptType.repeated_calculation)) = true := by
  induction ls generalizing i with
  | nil => rfl
  | cons l ls ih =>
    simp only [scanOpts, List.all_append, Bool.and_eq_true]
    exact ⟨lineOpts_no_multiline i l (hls l (List.mem_cons_self l ls)),
      ih (i + 1) fun l' hl' => hls l' (List.mem_cons_of_mem l hl')⟩

/-- The per-alias classification loop of a plain `Import` node appends the
stdlib-matching aliases to `standard` and the rest to `third_party`. -/
theorem foldl_alias_classify (names : List String) (acc : Imports) :
    names.foldl
        (fun a nm =>
          if stdlib_modules.contains (firstSegment nm) then
            { a with standard := a.standard ++ [nm] }
          else
            { a with third_party := a.third_party ++ [nm] })
        acc =
      { acc with
        standard :=
          acc.standard ++ names.filter fun nm => stdlib_modules.contains (firstSegment nm)
        third_party :=
          acc.third_party ++ names.filter fun nm => !stdlib_modules.contains (firstSegment nm) } := by
  induction names generalizing acc with
  | nil => simp
  | cons nm names ih =>
    rw [List.foldl_cons, ih]
    by_cases h : firstSegment nm ∈ stdlib_modules <;>
      simp [h, List.filter_cons, List.append_assoc]

/-- Characterization of the `_analyze_imports` loop from an arbitrary
accumulator. -/
theorem foldl_import_step (ns : List PyNode) (acc : Imports) :
    ns.foldl import_step acc =
      { standard := acc.standard ++ (ns.map standard_entries).flatten
        third_party := acc.third_party ++ (ns.map third_party_entries).flatten
        relative := acc.relative ++ ns.filterMap relative_entry } := by
  induction ns generalizing acc with
  | nil => simp
  | cons n ns ih =>
    rw [List.foldl_cons, ih]
    cases n with
    | module b =>
        simp [import_step, standard_entries, third_party_entries, relative_entry]
    | expr e =>
        simp [import_step, standard_entries, third_party_entries, relative_entry]
    | stmt s =>
        cases s with
        | importStmt names ln =>
            rw [import_step, foldl_alias_classify]
            simp [standard_entries, third_party_entries, relative_entry, List.append_assoc]
        | importFrom m names level ln =>
            by_cases hlv : 0 < level
            · simp [import_step, standard_entries, third_party_entries, relative_entry, hlv,
                code_render_relative, List.append_assoc]
            · by_cases hstd :
                  (if pyTruthyStr m then firstSegment (m.getD "") else "") ∈ stdlib_modules <;>
                simp [import_step, standard_entries, third_party_entries, relative_entry, hlv,
                  hstd, List.append_assoc]
        | _ => simp [import_step, standard_entries, third_party_entries, relative_entry]

/-! ### Render-independence under simple names (for C8) -/

theorem map_renderName_eq (r r' : PyExpr → String) (es : List PyExpr)
    (h : (es.all fun e => match e with | .name .. => true | _ => false) = true) :
    es.map (renderName r) = es.map (renderName r') := by
  induction es with
  | nil => rfl
  | cons e es ih =>
    simp only [List.all_cons, Bool.and_eq_true] at h
    obtain ⟨he, hes⟩ := h
    cases e <;> simp_all [renderName]

theorem analyze_functions_render_eq (r r' : PyExpr → String) (tree : List PyStmt)
    (h : treeSimpleNames tree = true) :
    analyze_functions r tree = analyze_functions r' tree := by
  unfold analyze_functions
  refine List.filterMap_congr ?_
  intro n hn
  have hs : nodeSimpleNames n = true := by
    rw [treeSimpleNames, List.all_eq_true] at h
    exact h n hn
  cases n with
  | module b => rfl
  | expr e => rfl
  | stmt s =>
    cases s with
    | functionDef nm as ds b dec ln =>
        simp only [nodeSimpleNames] at hs
        simp [map_renderName_eq r r' dec hs]
    | _ => rfl

theorem extract_patterns_render_eq (r r' : PyExpr → String) (tree : List PyStmt)
    (h : treeSimpleNames tree = true) :
    extract_patterns r tree = extract_patterns r' tree := by
  unfold extract_patterns
  refine List.filterMap_congr ?_
  intro n hn
  have hs : nodeSimpleNames n = true := by
    rw [treeSimpleNames, List.all_eq_true] at h
    exact h n hn
  cases n with
  | module b => rfl
  | expr e => rfl
  | stmt s =>
    cases s with
    | classDef nm bs b dec ln =>
        simp only [nodeSimpleNames, Bool.and_eq_true] at hs
        simp [analyze_class_pattern, map_renderName_eq r r' bs hs.1]
    | _ => rfl

theorem analyze_classes_render_eq (r r' : PyExpr → String) (tree : List PyStmt)
    (h : treeSimpleNames tree = true) :
    analyze_classes r tree = analyze_classes r' tree := by
  unfold analyze_classes
  refine List.filterMap_congr ?_
  intro n hn
  have hs : nodeSimpleNames n = true := by
    rw [treeSimpleNames, List.all_eq_true] at h
    exact h n hn
  cases n with
  | module b => rfl
  | expr e => rfl
  | stmt s =>
    cases s with
    | classDef nm bs b dec ln =>
        simp only [nodeSimpleNames, Bool.and_eq_true] at hs
        simp [map_renderName_eq r r' bs hs.1, map_renderName_eq r r' dec hs.2]
    | _ => rfl

/-- On *any* tree, the function details of two runs agree once their
decorator strings are dropped: the decorators are the only render-dependent
field. -/
theorem analyze_functions_scrub_eq (r r' : PyExpr → String) (tree : List PyStmt) :
    (analyze_functions r tree).map FuncInfo.eraseDecorators =
      (analyze_functions r' tree).map FuncInfo.eraseDecorators := by
  unfold analyze_functions
  rw [List.map_filterMap, List.map_filterMap]
  refine List.filterMap_congr ?_
  intro n _
  cases n with
  | module b => rfl
  | expr e => rfl
  | stmt s => cases s <;> rfl

/-- On *any* tree, the patterns of two runs agree once the class-pattern base
strings are dropped. -/
theorem extract_patterns_scrub_eq (r r' : PyExpr → String) (tree : List PyStmt) :
    (extract_patterns r tree).map Pattern.eraseBases =
      (extract_patterns r' tree).map Pattern.eraseBases := by
  unfold extract_patterns
  rw [List.map_filterMap, List.map_filterMap]
  refine List.filterMap_congr ?_
  intro n _
  cases n with
  | module b => rfl
  | expr e => rfl
  | stmt s => cases s <;> rfl

/-- On *any* tree, the class details of two runs agree once their base-class
and decorator strings are dropped. -/
theorem analyze_classes_scrub_eq (r r' : PyExpr → String) (tree : List PyStmt) :
    (analyze_classes r tree).map ClassInfo.eraseRendered =
      (analyze_classes r' tree).map ClassInfo.eraseRendered := by
  unfold analyze_classes
  rw [List.map_filterMap, List.map_filterMap]
  refine List.filterMap_congr ?_
  intro n _
  cases n with
  | module b => rfl
  | expr e => rfl
  | stmt s => cases s <;> rfl

/-- The docstring column of the function details never depends on the
rendering. -/
theorem analyze_functions_map_docstring (r r' : PyExpr → String) (tree : List PyStmt) :
    (analyze_functions r tree).map (fun f => f.docstring) =
      (analyze_functions r' tree).map (fun f => f.docstring) := by
  unfold analyze_functions
  rw [List.map_filterMap, List.map_filterMap]
  refine List.filterMap_congr ?_
  intro n _
  cases n with
  | module b => rfl
  | expr e => rfl
  | stmt s => cases s <;> rfl

/-- The quality score reads the function list only through the length and the
docstring column, so it agrees on two lists with the same docstrings. -/
theorem calculate_quality_score_congr (bugs : List BugDiag) (cm : ComplexityMetrics)
    {fns fns' : List FuncInfo}
    (h : fns.map (fun f => f.docstring) = fns'.map (fun f => f.docstring)) :
    calculate_quality_score bugs cm fns = calculate_quality_score bugs cm fns' := by
  have hlen : fns.length = fns'.length := by
    simpa using congrArg List.length h
  have hcount : (fns.countP fun f => pyTruthyStr f.docstring) =
      fns'.countP fun f => pyTruthyStr f.docstring := by
    have h1 := congrArg (List.countP pyTruthyStr) h
    simpa [List.countP_map, Function.comp] using h1
  have hempty : fns.isEmpty = fns'.isEmpty := by
    cases fns <;> cases fns' <;> simp_all
  simp only [calculate_quality_score, rawQualityScore]
  rw [hcount, hlen, hempty]

/-! ### Concrete sample inputs used by counterexamples and witnesses -/

/-- A syntactically valid file whose only diagnostic is one `bare_except`
(high severity) and whose single function has the *empty string* as its
docstring (`ast.get_docstring` returns `""` for `def f(): ""`). -/
def content1 : String := "def f():\n    \"\"\n    try:\n        pass\n    except:\n        pass"

/-- The parse tree of `content1` (`pass` is an `otherStmt`). -/
def tree1 : List PyStmt :=
  [.functionDef "f" [] []
     [.exprStmt (.constantStr "" 2) 2,
      .tryStmt [.otherStmt [] [] 4] [.exceptHandler none [.otherStmt [] [] 6] 5] [] [] 3]
     [] 1]

/-- A function detail record with a non-empty docstring. -/
def fnDoc : FuncInfo :=
  { name := "f", line_number := 1, args := [], defaults := 0, returns_count := 0,
    raises_count := 0, docstring := some "doc", is_async := false, decorators := [] }

/-- A high-severity diagnostic (as `bare_except` produces). -/
def highDiag : BugDiag :=
  { type := .bare_except, line := 1, content := "except:", severity := .high,
    pattern := "except\\s*:" }

def cm0 : ComplexityMetrics := ⟨0, 0, 0, 0, 0, 0, 0⟩

/-- `from ..pkg import x` (relative level 2). -/
def tree7 : List PyStmt := [.importFrom (some "pkg") ["x"] 2 1]

/-- `class A(B.C): pass` — the single base is an attribute expression, not a
simple name, so the analyzer falls back to `str(base)` for it. -/
def content8 : String := "class A(B.C):\n    pass"

/-- The parse tree of `content8`: the base `B.C` is an attribute node,
modelled as `otherExpr` with the child name `B`, and `pass` is an
`otherStmt`. -/
def tree8 : List PyStmt :=
  [.classDef "A" [.otherExpr [.name "B" 1] 1] [.otherStmt [] [] 2] [] 1]

/-- Two possible values of `str` on the same non-`Name` AST node in two
different runs: CPython (before 3.13) renders the default object repr, which
embeds the object's memory address, and each call to `analyze_file` parses a
fresh tree. -/
def render1 : PyExpr → String := fun _ => "<ast.Attribute object at 0x7f5a10>"

def render2 : PyExpr → String := fun _ => "<ast.Attribute object at 0x7f5b38>"

/-! ### The claims -/

/-- C1 (counterexample): at the parsed input `content1`/`tree1` the pipeline
score is 90 but the claimed formula — whose docstring bonus counts every
function whose docstring is *present* — yields 100: the code's bonus tests
Python truthiness of the stored docstring, so the function with docstring
`""` earns no bonus.  Hence the claimed formula does not compute the quality
score. -/
theorem c1_counterexample :
    (analyze_file render1 "sample.py" (.ok (content1, tree1)) 0).qualityScore? =
        some (90 : ℚ) ∧
      spec_quality_score (detect_potential_bugs content1) (calculate_complexity tree1)
          (analyze_functions render1 tree1) = 100 ∧
      (((90 : ℚ) : ℚ) = 100) = False := by
  have hb : (detect_potential_bugs content1).map (fun d => d.severity) = [.high] := by decide
  have hc : calculate_complexity tree1 = ⟨0, 1, 1, 1, 0, 0, 0⟩ := by decide
  have hf : (analyze_functions render1 tree1).map (fun f => f.docstring) = [some ""] := by decide
  refine ⟨?_, ?_, by norm_num⟩
  · simp only [analyze_file, FileAnalysis.qualityScore?, Option.some.injEq]
    generalize hB : detect_potential_bugs content1 = B at hb
    generalize hF : analyze_functions render1 tree1 = F at hf
    match B, hb with
    | [b], hb =>
    match F, hf with
    | [f], hf =>
    simp only [List.map_cons, List.map_nil, List.cons.injEq, and_true] at hb hf
    simp [calculate_quality_score, rawQualityScore, hb, hf, hc, severityPenalty, pyTruthyStr,
      max_def, min_def]
    norm_num
  · generalize hB : detect_potential_bugs content1 = B at hb
    generalize hF : analyze_functions render1 tree1 = F at hf
    match B, hb with
    | [b], hb =>
    match F, hf with
    | [f], hf =>
    simp only [List.map_cons, List.map_nil, List.cons.injEq, and_true] at hb hf
    simp [spec_quality_score, hb, hf, hc, max_def, min_def]

/-- C1 (as amended): for every successfully parsed input, the quality score
equals the claimed formula with the docstring bonus counting only functions
whose docstring is present *and non-empty* — start at 100; subtract 20 per
critical, 10 per high, 5 per medium and 2 per low severity diagnostic
(optimization hints contribute nothing); subtract
`(maxFunctionComplexity − 10) × 3` when `maxFunctionComplexity > 10`; add
`10 × (non-empty-docstring function count / total function count)` when the
function list is non-empty; clamp to `[0, 100]`. -/
theorem c1_quality_score_formula_amended (render : PyExpr → String) (path content : String)
    (tree : List PyStmt) (now : Nat) :
    (analyze_file render path (.ok (content, tree)) now).qualityScore? =
      some (spec_quality_score_amended (detect_potential_bugs content)
        (calculate_complexity tree) (analyze_functions render tree)) := by
  simp only [analyze_file, FileAnalysis.qualityScore?]
  rw [calculate_quality_score_eq_spec_amended]

/-- C2: every successfully parsed input yields the success variant, with a
quality score in the closed interval `[0, 100]`. -/
theorem c2_quality_score_in_range (render : PyExpr → String) (path content : String)
    (tree : List PyStmt) (now : Nat) :
    ∃ loc cm pats fns cls imp bugs opts q,
      analyze_file render path (.ok (content, tree)) now =
        .success path loc cm pats fns cls imp bugs opts q now ∧ 0 ≤ q ∧ q ≤ 100 := by
  refine ⟨_, _, _, _, _, _, _, _, _, rfl, ?_, ?_⟩
  · exact (clamp_mem _).1
  · exact (clamp_mem _).2

/-- C3: when the read or parse fails, `analyze_file` returns the failure
variant carrying exactly the file path, the error message and the timestamp
(no other field exists on that variant, and none of the analysis passes is
invoked to build it); and on every input exactly one of the two variants is
produced. -/
theorem c3_failure_path (render : PyExpr → String) (path msg : String) (now : Nat) :
    analyze_file render path (.error msg) now = .failure path msg now ∧
      ∀ input : Except String (String × List PyStmt),
        (analyze_file render path input now).isFailure =
          !(analyze_file render path input now).isSuccess := by
  refine ⟨rfl, ?_⟩
  intro input
  match input with
  | .error e => rfl
  | .ok (content, tree) => rfl

/-- C4: on every successful parse the single traversal yields exactly the
claimed metrics — `cyclomatic` counts conditional/for/while nodes,
`try_blocks` the try-blocks, `except_blocks` the exception handlers,
`functions` the function definitions (sync or async), `classes` the class
definitions, `comprehensions` the list/dict/set comprehensions, and
`max_function_complexity` the running maximum (from 0) of the local
complexity — the count of conditional/for/while nodes anywhere in the
function's subtree, nested functions included — over every function
definition visited. -/
theorem c4_complexity_metrics (tree : List PyStmt) :
    (calculate_complexity tree).cyclomatic = (walkModule tree).countP isBranchNode ∧
      (calculate_complexity tree).try_blocks = (walkModule tree).countP isTryNode ∧
      (calculate_complexity tree).except_blocks = (walkModule tree).countP isExceptHandlerNode ∧
      (calculate_complexity tree).functions =
        ((walkModule tree).countP fun n => isFunctionDefNode n || isAsyncFunctionDefNode n) ∧
      (calculate_complexity tree).classes = (walkModule tree).countP isClassDefNode ∧
      (calculate_complexity tree).comprehensions = (walkModule tree).countP isComprehensionNode ∧
      (calculate_complexity tree).max_function_complexity =
        ((walkModule tree).filterMap funcLocal).foldl max 0 := by
  unfold calculate_complexity
  rw [foldl_complexity_step]
  simp

/-- C5 (counterexample): with no diagnostics, zero complexity and one
docstringed function the score is 100 (the unclamped value 110 hits the upper
clamp); adding one high-severity diagnostic leaves the score at 100 — neither
a strict decrease by exactly 10 nor a value clamped at 0. -/
theorem c5_counterexample :
    calculate_quality_score [] cm0 [fnDoc] = 100 ∧
      calculate_quality_score [highDiag] cm0 [fnDoc] = 100 ∧
      ((100 : ℚ) = 100 - 10 ∨ (100 : ℚ) = 0) = False := by
  refine ⟨?_, ?_, by norm_num⟩ <;>
    simp [calculate_quality_score, rawQualityScore, cm0, fnDoc, highDiag, severityPenalty,
      pyTruthyStr, max_def, min_def]

/-- C5 (as amended): holding everything else fixed, adding one more
high-severity diagnostic strictly decreases the score by exactly 10, or
leaves it clamped at 0, or — when the original score sat at the upper clamp
100 — decreases it by strictly less than 10 (possibly 0), never below 90. -/
theorem c5_high_severity_monotonicity_amended (bugs : List BugDiag) (cm : ComplexityMetrics)
    (fns : List FuncInfo) (d : BugDiag) (hd : d.severity = .high) :
    calculate_quality_score (bugs ++ [d]) cm fns = calculate_quality_score bugs cm fns - 10 ∨
      calculate_quality_score (bugs ++ [d]) cm fns = 0 ∨
      (calculate_quality_score bugs cm fns = 100 ∧
        calculate_quality_score bugs cm fns - 10 < calculate_quality_score (bugs ++ [d]) cm fns ∧
        calculate_quality_score (bugs ++ [d]) cm fns ≤ calculate_quality_score bugs cm fns) := by
  unfold calculate_quality_score
  rw [rawQualityScore_append_high bugs cm fns d hd]
  exact clamp_sub_ten _

theorem c5_high_severity_monotonicity_amended_witness :
    calculate_quality_score ([] ++ [highDiag]) cm0 [] =
        calculate_quality_score [] cm0 [] - 10 ∨
      calculate_quality_score ([] ++ [highDiag]) cm0 [] = 0 ∨
      (calculate_quality_score [] cm0 [] = 100 ∧
        calculate_quality_score [] cm0 [] - 10 < calculate_quality_score ([] ++ [highDiag]) cm0 [] ∧
        calculate_quality_score ([] ++ [highDiag]) cm0 [] ≤ calculate_quality_score [] cm0 []) :=
  c5_high_severity_monotonicity_amended [] cm0 [] highDiag rfl

/-- C6: analyzing an empty file (empty content, empty module body) yields the
success variant with zero lines, all-zero complexity metrics (in particular
`max_function_complexity = 0`), no patterns, no functions, no classes, no
imports, no bug diagnostics, no optimization hints, and quality score
exactly 100. -/
theorem c6_empty_file (render : PyExpr → String) (path : String) (now : Nat) :
    analyze_file render path (.ok ("", [])) now =
      .success path 0 ⟨0, 0, 0, 0, 0, 0, 0⟩ [] [] [] ⟨[], [], []⟩ [] [] 100 now := by
  have hscore :
      calculate_quality_score (detect_potential_bugs "") (calculate_complexity [])
        (analyze_functions render []) = 100 := by
    have h1 : detect_potential_bugs "" = [] := rfl
    have h2 : calculate_complexity [] = ⟨0, 0, 0, 0, 0, 0, 0⟩ := rfl
    have h3 : analyze_functions render [] = [] := rfl
    rw [h1, h2, h3]
    simp [calculate_quality_score, rawQualityScore, max_def, min_def]
  simp only [analyze_file, hscore]
  rfl

/-- C7 (counterexample): `from ..pkg import x` (relative level 2, module
`pkg`) is classified as relative but rendered `".pkg"` — a *single* leading
dot — whereas the claimed rendering with one dot per relative level would be
`"..pkg"`. -/
theorem c7_counterexample :
    (analyze_imports tree7).relative = [".pkg"] ∧
      spec_render_relative 2 (some "pkg") = "..pkg" ∧
      ((".pkg" : String) = "..pkg") = False := by
  refine ⟨by decide, by decide, by simp⟩

/-- C7 (as amended): every from-import with nonzero relative level goes to
the relative list regardless of its module name, rendered as the module name
prefixed by a *single* leading dot (or a single dot alone when the module
name is empty or absent); every plain-import alias and level-0 from-import
module is classified standard or third-party by matching its first
dotted-path segment against the fixed standard-library name set. -/
theorem c7_import_classification_amended (tree : List PyStmt) :
    analyze_imports tree =
      { standard := ((walkModule tree).map standard_entries).flatten
        third_party := ((walkModule tree).map third_party_entries).flatten
        relative := (walkModule tree).filterMap relative_entry } := by
  unfold analyze_imports
  rw [foldl_import_step]
  simp

/-- C8 (counterexample): analyzing the byte-identical, syntactically valid
source `content8` (`class A(B.C): pass`) twice can produce different
`classes` details even at the *same* timestamp: the base class is not a
simple name, so each run stores `str(base)` — CPython's default object repr
of that run's freshly parsed AST object, which embeds its memory address
(`render1`/`render2`). -/
theorem c8_counterexample :
    ((analyze_file render1 "a.py" (.ok (content8, tree8)) 0).eraseTimestamp =
        (analyze_file render2 "a.py" (.ok (content8, tree8)) 0).eraseTimestamp) = False := by
  have h1 : (analyze_file render1 "a.py" (.ok (content8, tree8)) 0).eraseTimestamp ≠
      (analyze_file render2 "a.py" (.ok (content8, tree8)) 0).eraseTimestamp := by
    intro h
    have := congrArg (fun r => match r with
      | FileAnalysis.success _ _ _ _ _ cls _ _ _ _ _ => cls
      | FileAnalysis.failure .. => []) h
    simp [analyze_file, FileAnalysis.eraseTimestamp, analyze_classes, walkModule, walkStmts,
      walkStmt, walkExprs, walkExpr, renderName, tree8, render1, render2, classMethods,
      get_docstring, methodName] at this
  simp [h1]

/-- C8 (as amended): for *every* file, two runs over byte-identical content
agree on every field except the timestamp and the `str(ast_node)` fallback
renderings of decorator / base-class expressions — removing exactly those
string lists (`FileAnalysis.eraseRendered`) makes the two results equal, the
quality score included; and whenever every decorator and base class in the
file is a simple name, so the fallback is never consulted, the two runs agree
on all non-timestamp fields outright. -/
theorem c8_idempotence_amended (r r' : PyExpr → String) (path content : String)
    (tree : List PyStmt) (t t' : Nat) :
    (analyze_file r path (.ok (content, tree)) t).eraseRendered =
        (analyze_file r' path (.ok (content, tree)) t').eraseRendered ∧
      (treeSimpleNames tree = true →
        (analyze_file r path (.ok (content, tree)) t).eraseTimestamp =
          (analyze_file r' path (.ok (content, tree)) t').eraseTimestamp) := by
  constructor
  · simp only [analyze_file, FileAnalysis.eraseRendered]
    rw [analyze_functions_scrub_eq r r', extract_patterns_scrub_eq r r',
      analyze_classes_scrub_eq r r',
      calculate_quality_score_congr (detect_potential_bugs content)
        (calculate_complexity tree) (analyze_functions_map_docstring r r' tree)]
  · intro h
    simp only [analyze_file, FileAnalysis.eraseTimestamp]
    rw [analyze_functions_render_eq r r' tree h, extract_patterns_render_eq r r' tree h,
      analyze_classes_render_eq r r' tree h]

theorem c8_idempotence_amended_witness :
    (analyze_file render1 "a.py"
        (.ok ("class A(B):\n    pass",
          [PyStmt.classDef "A" [.name "B" 1] [.otherStmt [] [] 2] [] 1])) 1).eraseTimestamp =
      (analyze_file render2 "a.py"
        (.ok ("class A(B):\n    pass",
          [PyStmt.classDef "A" [.name "B" 1] [.otherStmt [] [] 2] [] 1])) 2).eraseTimestamp :=
  (c8_idempotence_amended render1 render2 "a.py" "class A(B):\n    pass"
    [PyStmt.classDef "A" [.name "B" 1] [.otherStmt [] [] 2] [] 1] 1 2).2 (by decide)

/-- C9: the lexical scan never emits a `duplicate_code` bug diagnostic and
never emits a `list_comprehension` or `repeated_calculation` optimization
hint: each of those three patterns requires a literal newline, and no
physical line produced by `splitlines` contains one. -/
theorem c9_multiline_rules_never_fire (content : String) :
    ((detect_potential_bugs content).all fun d =>
        decide (d.type ≠ BugType.duplicate_code)) = true ∧
      ((find_optimizations content).all fun o =>
        decide (o.type ≠ OptType.list_comprehension) &&
          decide (o.type ≠ OptType.repeated_calculation)) = true := by
  constructor
  · exact scanBugs_no_duplicate_code 1 _ (pySplitlines_no_newline content)
  · exact scanOpts_no_multiline 1 _ (pySplitlines_no_newline content)

/-! ### Counting lemmas for C10 -/

theorem countP_or_disjoint {α : Type} (l : List α) (p q : α → Bool)
    (h : ∀ a, p a = true → q a = false) :
    (l.countP fun a => p a || q a) = l.countP p + l.countP q := by
  induction l with
  | nil => rfl
  | cons a l ih =>
    by_cases hp : p a
    · have hq := h a hp
      simp [List.countP_cons, hp, hq, ih]
      omega
    · by_cases hq : q a <;> (simp [List.countP_cons, hp, hq, ih]; try omega)

theorem length_filterMap_eq_countP {α β : Type} (f : α → Option β) (l : List α) :
    (l.filterMap f).length = l.countP fun a => (f a).isSome := by
  induction l with
  | nil => rfl
  | cons a l ih =>
    cases hf : f a <;> simp [List.filterMap_cons, hf, List.countP_cons, ih]

theorem countP_filterMap' {α β : Type} (f : α → Option β) (p : β → Bool) (l : List α) :
    (l.filterMap f).countP p = l.countP fun a => ((f a).map p).getD false := by
  induction l with
  | nil => rfl
  | cons a l ih => cases hf : f a <;> simp [List.filterMap_cons, hf, List.countP_cons, ih]

theorem countP_congr' {α : Type} (l : List α) (p q : α → Bool) (h : ∀ a ∈ l, p a = q a) :
    l.countP p = l.countP q := by
  induction l with
  | nil => rfl
  | cons a l ih =>
    simp only [List.countP_cons, h a (List.mem_cons_self a l),
      ih fun a' ha' => h a' (List.mem_cons_of_mem a ha')]

theorem funcDef_not_asyncDef (n : PyNode) :
    isFunctionDefNode n = true → isAsyncFunctionDefNode n = false := by
  cases n with
  | module b => intro hn; cases hn
  | expr e => intro hn; cases e <;> cases hn
  | stmt s => cases s <;> intro hn <;> first | rfl | cases hn

/-- C10: async function definitions are counted by the `functions` metric and
their local complexity participates in `max_function_complexity`, yet they
never yield a `FunctionPattern` and never appear in the detailed function
listing — every listed function detail has `is_async = false` (the listing
only matches `ast.FunctionDef`, of which `ast.AsyncFunctionDef` is not a
subclass). -/
theorem c10_async_functions (render : PyExpr → String) (tree : List PyStmt) :
    (calculate_complexity tree).functions =
        (walkModule tree).countP isFunctionDefNode +
          (walkModule tree).countP isAsyncFunctionDefNode ∧
      (analyze_functions render tree).length = (walkModule tree).countP isFunctionDefNode ∧
      (∀ f ∈ analyze_functions render tree, f.is_async = false) ∧
      (extract_patterns render tree).countP Pattern.isFunctionPattern =
        (walkModule tree).countP isFunctionDefNode ∧
      ∀ n ∈ walkModule tree, isAsyncFunctionDefNode n = true →
        ∀ c, funcLocal n = some c →
          c ≤ (calculate_complexity tree).max_function_complexity := by
  refine ⟨?_, ?_, ?_, ?_, ?_⟩
  · unfold calculate_complexity
    rw [foldl_complexity_step]
    simpa using countP_or_disjoint (walkModule tree) _ _ funcDef_not_asyncDef
  · unfold analyze_functions
    rw [length_filterMap_eq_countP]
    refine countP_congr' _ _ _ ?_
    intro n _
    cases n with
    | module b => rfl
    | expr e => rfl
    | stmt s => cases s <;> rfl
  · intro f hf
    unfold analyze_functions at hf
    obtain ⟨n, -, hemit⟩ := List.mem_filterMap.mp hf
    cases n with
    | module b => cases hemit
    | expr e => cases hemit
    | stmt s =>
      cases s <;> try cases hemit
      rfl
  · unfold extract_patterns
    rw [countP_filterMap']
    refine countP_congr' _ _ _ ?_
    intro n _
    cases n with
    | module b => rfl
    | expr e => rfl
    | stmt s => cases s <;> rfl
  · intro n hn hasync c hc
    unfold calculate_complexity
    rw [foldl_complexity_step]
    exact le_foldl_max _ _ _ (List.mem_filterMap.mpr ⟨n, hn, hc⟩)

/-- A module with one async function containing one conditional, and one
plain function. -/
def treeC10 : List PyStmt :=
  [.asyncFunctionDef "g" [] [] [.ifStmt (.name "x" 2) [.otherStmt [] [] 2] [] 2] [] 1,
   .functionDef "h" [] [] [.otherStmt [] [] 4] [] 3]

theorem c10_async_functions_witness :
    (({ name := "h", line_number := 3, args := [], defaults := 0, returns_count := 0,
        raises_count := 0, docstring := none, is_async := false,
        decorators := [] } : FuncInfo).is_async = false) ∧
      1 ≤ (calculate_complexity treeC10).max_function_complexity := by
  constructor
  · exact (c10_async_functions render1 treeC10).2.2.1 _ (by decide)
  · exact (c10_async_functions render1 treeC10).2.2.2.2
      (PyNode.stmt
        (.asyncFunctionDef "g" [] [] [.ifStmt (.name "x" 2) [.otherStmt [] [] 2] [] 2] [] 1))
      (by simp [walkModule, walkStmts, walkStmt, walkExpr, walkExprs, walkOptExpr])
      rfl 1 rfl
